import Mathlib

/-!
Verification of the data-aggregation pipeline of the 2019-nCoV dashboard
(`src/app.py`).

The four Dash callbacks (`update_graph`, `update_counts`,
`update_province_map`, `update_city_map`) are embedded shallowly:

* Python strings are embedded as `List Char` (`Str`); Python string
  comparison (by code point) is the lexicographic order on `List Char`.
* The JSON records consumed by the callbacks become structures whose
  fields keep the upstream key names (`confirm`, `provinceName`, ...).
* Machine integers in the payloads are natural numbers (the data model
  declares all counts non-negative; no arithmetic in the code overflows).
* A Python statement that can raise is embedded as an `Option`/`Except`
  returning function; the raising paths of interest are the 5-target
  unpacking of `zip(*[])` (ValueError), a missing `cities` key
  (KeyError), indexing an empty list (IndexError), and
  `raise_for_status` (the HTTP-status failure the spec's taxonomy calls
  `UpstreamUnavailable`).
* `numpy.log` is embedded as `Real.log`; the spec states the intensity
  contract over the reals (`intensity = ln(confirmed + 1)`).
* Python `sorted` on tuples is a stable ascending sort comparing whole
  tuples lexicographically.  Because the comparison key is the entire
  element, elements tie only when equal, so every sorting algorithm for
  that total order produces the same output list; we embed it as
  `List.insertionSort` under that total order.
-/

/-- Embedding of a Python string: its list of characters (code points). -/
abbrev Str := List Char

/-! ## `update_graph` (src/app.py lines 179-232): the time-series pipeline -/

/-- One record of `res["data"]["wuwei_ww_cn_day_counts"]`, the daily-count
payload consumed by `update_graph` (line 184). -/
structure DayRecord where
  date : Str
  confirm : ℕ
  suspect : ℕ
  dead : ℕ
  heal : ℕ
deriving DecidableEq

/-- Embedding of the 5-target unpacking `a, b, c, d, e = zip(*l)`
(lines 184-190).  For a non-empty list of 5-tuples, `zip(*l)` yields the
five component projections; for the empty list, `zip()` yields nothing
and the unpacking raises `ValueError` (here: `none`). -/
def unzip5 {α β γ δ ε : Type} (l : List (α × β × γ × δ × ε)) :
    Option (List α × List β × List γ × List δ × List ε) :=
  match l with
  | [] => none
  | _ :: _ =>
      some (l.map fun x => x.1, l.map fun x => x.2.1, l.map fun x => x.2.2.1,
            l.map fun x => x.2.2.2.1, l.map fun x => x.2.2.2.2)

/-- Embedding of Python `zip` on five equal-length sequences (line 189). -/
def zip5 {α β γ δ ε : Type} : List α → List β → List γ → List δ → List ε →
    List (α × β × γ × δ × ε)
  | a :: as, b :: bs, c :: cs, d :: ds, e :: es => (a, b, c, d, e) :: zip5 as bs cs ds es
  | _, _, _, _, _ => []

/-- Embedding of Python `s.split(c)` for a single-character separator
(line 187): splits at every occurrence, keeping empty pieces. -/
def splitOnChar (c : Char) : Str → List Str
  | [] => [[]]
  | x :: xs =>
      if x = c then [] :: splitOnChar c xs
      else
        match splitOnChar c xs with
        | [] => [[x]]
        | h :: t => (x :: h) :: t

/-- Embedding of the date reformatting of line 187:
`f"2020-{'-'.join(i.split('/'))}"`, so `"1/23"` becomes `"2020-1-23"`. -/
def pyDate (d : Str) : Str :=
  "2020-".data ++ List.intercalate ("-".data) (splitOnChar ('/') d)

/-- The sort key Python uses at line 189: the whole tuple
`(date, confirmed, suspected, dead, cured)`, compared lexicographically
with string comparison on the first component. -/
def entryKey (x : Str × ℕ × ℕ × ℕ × ℕ) :
    Lex (Str × Lex (ℕ × Lex (ℕ × Lex (ℕ × ℕ)))) :=
  toLex (x.1, toLex (x.2.1, toLex (x.2.2.1, toLex (x.2.2.2.1, x.2.2.2.2))))

/-- The total order in which Python's `sorted` arranges the tuples at
line 189. -/
def pyTupleLe (x y : Str × ℕ × ℕ × ℕ × ℕ) : Prop := entryKey x ≤ entryKey y

instance : DecidableRel pyTupleLe :=
  fun x y => inferInstanceAs (Decidable (entryKey x ≤ entryKey y))

instance : IsTotal (Str × ℕ × ℕ × ℕ × ℕ) pyTupleLe :=
  ⟨fun x y => le_total (entryKey x) (entryKey y)⟩

instance : IsTrans (Str × ℕ × ℕ × ℕ × ℕ) pyTupleLe :=
  ⟨fun _ _ _ h h2 => le_trans h h2⟩

/-- The series computation of `update_graph` (lines 184-190): extract the
per-day tuples, unpack them (ValueError on an empty payload), reformat
the dates, sort the rezipped tuples, and unpack again.  `none` embeds an
uncaught exception. -/
def update_graph (data : List DayRecord) :
    Option (List Str × List ℕ × List ℕ × List ℕ × List ℕ) :=
  match unzip5 (data.map fun i => (i.date, i.confirm, i.suspect, i.dead, i.heal)) with
  | none => none
  | some (dates, confirmeds, suspecteds, deads, cureds) =>
      unzip5 (List.insertionSort pyTupleLe
        (zip5 (dates.map pyDate) confirmeds suspecteds deads cureds))

/-- The tuple a single day record contributes to the sorted series:
its reformatted date together with its four counts. -/
def dayEntry (i : DayRecord) : Str × ℕ × ℕ × ℕ × ℕ :=
  (pyDate i.date, i.confirm, i.suspect, i.dead, i.heal)

/-- Decimal value of a digit string (used only to state calendar-date
order on the formatted dates, per the spec's words). -/
def digitsVal (l : Str) : ℕ := l.foldl (fun acc c => acc * 10 + (c.toNat - 48)) 0

/-- Calendar key of a formatted date `"2020-M-D"`: `y * 10000 + m * 100 + d`.
Written from the spec's notion of calendar-date order. -/
def calendarKey (s : Str) : ℕ :=
  match splitOnChar ('-') s with
  | [y, m, d] => digitsVal y * 10000 + digitsVal m * 100 + digitsVal d
  | _ => 0

/-- Calendar-date order on formatted dates, per the spec. -/
def calendarLe (a b : Str) : Prop := calendarKey a ≤ calendarKey b

instance : DecidableRel calendarLe :=
  fun a b => inferInstanceAs (Decidable (calendarKey a ≤ calendarKey b))

/-! ## `update_counts` (lines 245-260): the snapshot publisher -/

/-- Exception values the embedded callbacks can raise.
`upstreamUnavailable` is `requests.Response.raise_for_status` on a
non-success HTTP status (the spec's name for that condition);
`keyError`, `indexError` and `valueError` are the corresponding Python
exceptions; `malformedResponse` is declared because the spec's error
taxonomy names it, but no code path in `src/app.py` raises it. -/
inductive PyError where
  | upstreamUnavailable (status : ℕ)
  | keyError (key : Str)
  | indexError
  | valueError
  | malformedResponse
deriving DecidableEq

/-- One element of `res["data"]["wuwei_ww_global_vars"]` (lines 249-253). -/
structure GlobalVar where
  confirmCount : ℕ
  suspectCount : ℕ
  deadCount : ℕ
  cure : ℕ
  update_time : Str
deriving DecidableEq

/-- Embedding of the format `f"{n:05d}"` for a natural number
(lines 256-259): the decimal digits, left-padded with `'0'` to a minimum
width of five. -/
def pyFormat05 (n : ℕ) : Str :=
  let s := Nat.toDigits 10 n
  List.replicate (5 - s.length) '0' ++ s

/-- The pure core of `update_counts` (lines 249-260), given the decoded
`wuwei_ww_global_vars` array and the local clock string
(`datetime.now().strftime(...)`).  Indexing `[0]` into an empty array
raises `IndexError`.  The callback also reads the upstream
`update_time` field into a local variable (line 253) but never uses it;
the published refresh-time text comes from the local clock alone. -/
def update_counts (gvars : List GlobalVar) (now : Str) :
    Except PyError (Str × Str × Str × Str × Str) :=
  match gvars[0]? with
  | none => .error .indexError
  | some g =>
      .ok ("更新时间：".data ++ now,
           pyFormat05 g.confirmCount, pyFormat05 g.suspectCount,
           pyFormat05 g.deadCount, pyFormat05 g.cure)

/-- Agreement of two global-variable records on everything except the
upstream-reported `update_time` field. -/
def agreeExceptTime (g h : GlobalVar) : Prop :=
  g.confirmCount = h.confirmCount ∧ g.suspectCount = h.suspectCount ∧
  g.deadCount = h.deadCount ∧ g.cure = h.cure

/-! ## `update_province_map` (lines 264-311): the province table -/

/-- One element of a province's `cities` list (lines 331-336). -/
structure ProvEntryCity where
  cityName : Str
  confirmedCount : ℕ
  suspectedCount : ℕ
  curedCount : ℕ
  deadCount : ℕ
deriving DecidableEq

/-- One element of `res["data"]["getAreaStat"]` (lines 268-279 and
321-336).  A missing `cities` key is `none`. -/
structure ProvEntry where
  provinceName : Str
  provinceShortName : Str
  confirmedCount : ℕ
  suspectedCount : ℕ
  curedCount : ℕ
  deadCount : ℕ
  cities : Option (List ProvEntryCity)
deriving DecidableEq

/-- Embedding of Python `s.rstrip(c)` for a single character: remove
every trailing occurrence of `c` (line 272). -/
def pyRstrip (l : Str) (c : Char) : Str :=
  (l.reverse.dropWhile (fun x => x == c)).reverse

/-- The join key of line 272: `i["provinceName"].rstrip("省").rstrip("市")`. -/
def joinKey (s : Str) : Str := pyRstrip (pyRstrip s ('省')) ('市')

/-- The tuple unpacking of `update_province_map` (lines 269-280): join
key plus the four counts, in the order `(name, confirmed, suspected,
cured, dead)`; the same `zip(*...)` unpacking as in `update_graph`, so
an empty payload raises `ValueError` (`none`). -/
def update_province_map (data : List ProvEntry) :
    Option (List Str × List ℕ × List ℕ × List ℕ × List ℕ) :=
  unzip5 (data.map fun i =>
    (joinKey i.provinceName, i.confirmedCount, i.suspectedCount, i.curedCount, i.deadCount))

/-- Embedding of `np.add(l, k)` on an integer sequence (lines 281, 337). -/
def np_add (l : List ℕ) (k : ℕ) : List ℕ := l.map fun n => n + k

/-- Embedding of `np.log` on an integer sequence (lines 281, 337), read
over the reals as the spec does. -/
noncomputable def np_log (l : List ℕ) : List ℝ := l.map fun n : ℕ => Real.log (n : ℝ)

/-- `confirmeds_log` of line 281: `np.log(np.add(confirmeds, 1))` over
the province table's confirmed column. -/
noncomputable def province_confirmeds_log (data : List ProvEntry) : Option (List ℝ) :=
  (update_province_map data).map fun out => np_log (np_add out.2.1 1)

/-! ## `update_city_map` (lines 315-377): the city table -/

/-- The fixed municipality set of line 50. -/
def municipalities : List Str :=
  ["北京".data, "上海".data, "天津".data, "重庆".data, "台湾".data]

/-- One row of the city table: the five per-row appends of
lines 325-329 / 332-336. -/
structure CityRow where
  name : Str
  confirmed : ℕ
  suspected : ℕ
  cured : ℕ
  dead : ℕ
deriving DecidableEq

/-- The row a nested city entry contributes (lines 332-336). -/
def cityRowOfCity (c : ProvEntryCity) : CityRow :=
  ⟨c.cityName, c.confirmedCount, c.suspectedCount, c.curedCount, c.deadCount⟩

/-- The rows one province entry contributes to the city table
(loop body, lines 321-336): a municipality contributes its own
province-level counts as a single pseudo-city row and its `cities` list
is never read (`continue`); any other province contributes one row per
nested city; a non-municipality without a `cities` key raises
`KeyError` (`none`). -/
def cityRowsOfProvince (p : ProvEntry) : Option (List CityRow) :=
  if p.provinceShortName ∈ municipalities then
    some [⟨p.provinceShortName, p.confirmedCount, p.suspectedCount, p.curedCount, p.deadCount⟩]
  else
    match p.cities with
    | some cs => some (cs.map cityRowOfCity)
    | none => none

/-- The whole city-table loop of lines 320-336, concatenating each
province's contribution in order; the first missing `cities` key aborts
the callback (`none`). -/
def update_city_rows : List ProvEntry → Option (List CityRow)
  | [] => some []
  | p :: rest =>
      match cityRowsOfProvince p with
      | none => none
      | some rows =>
          match update_city_rows rest with
          | none => none
          | some rs => some (rows ++ rs)

/-- `confirmeds_log` of line 337 over the city table's confirmed column. -/
noncomputable def city_confirmeds_log (data : List ProvEntry) : Option (List ℝ) :=
  (update_city_rows data).map fun rows => np_log (np_add (rows.map CityRow.confirmed) 1)

/-- The observable state `update_city_map` can touch across a tick: the
content of the `cities_data.csv` export (line 347) and the last
published figure data. -/
structure CityMapState where
  csvFile : Option (List CityRow)
  published : Option (List CityRow)
deriving DecidableEq

/-- Result of the upstream fetch at lines 316-317: a decoded payload, or
a non-success HTTP status on which `raise_for_status` raises. -/
inductive FetchResult (α : Type) where
  | ok (payload : α)
  | httpError (status : ℕ)

/-- One tick of `update_city_map` (lines 315-377) over the observable
state: `raise_for_status` (line 317) raises before anything else runs;
a missing `cities` key raises inside the loop, still before the CSV
write of line 347; only a fully successful tick overwrites the CSV file
and publishes the new figure data. -/
def run_update_city_map (fetch : FetchResult (List ProvEntry)) (st : CityMapState) :
    CityMapState × Except PyError (List CityRow) :=
  match fetch with
  | .httpError s => (st, .error (.upstreamUnavailable s))
  | .ok data =>
      match update_city_rows data with
      | none => (st, .error (.keyError ("cities".data)))
      | some rows => (⟨some rows, some rows⟩, .ok rows)

/-! ## Helper lemmas -/

theorem unzip5_eq {α β γ δ ε : Type} {l : List (α × β × γ × δ × ε)}
    {a : List α} {b : List β} {c : List γ} {d : List δ} {e : List ε}
    (h : unzip5 l = some (a, b, c, d, e)) :
    a = l.map (fun x => x.1) ∧ b = l.map (fun x => x.2.1) ∧ c = l.map (fun x => x.2.2.1) ∧
      d = l.map (fun x => x.2.2.2.1) ∧ e = l.map (fun x => x.2.2.2.2) := by
  cases l with
  | nil => exact absurd h (by simp [unzip5])
  | cons x xs =>
      rw [unzip5] at h
      simp only [Option.some.injEq, Prod.mk.injEq] at h
      obtain ⟨h1, h2, h3, h4, h5⟩ := h
      exact ⟨h1.symm, h2.symm, h3.symm, h4.symm, h5.symm⟩

theorem unzip5_eq_none {α β γ δ ε : Type} {l : List (α × β × γ × δ × ε)} :
    unzip5 l = none ↔ l = [] := by
  cases l <;> simp [unzip5]

theorem unzip5_isSome {α β γ δ ε : Type} {l : List (α × β × γ × δ × ε)} (h : l ≠ []) :
    (unzip5 l).isSome = true := by
  cases l with
  | nil => exact absurd rfl h
  | cons x xs => simp [unzip5]

theorem zip5_maps {ι α β γ δ ε : Type} (l : List ι) (f1 : ι → α) (f2 : ι → β) (f3 : ι → γ)
    (f4 : ι → δ) (f5 : ι → ε) :
    zip5 (l.map f1) (l.map f2) (l.map f3) (l.map f4) (l.map f5) =
      l.map fun x => (f1 x, f2 x, f3 x, f4 x, f5 x) := by
  induction l with
  | nil => rfl
  | cons x xs ih => simp only [List.map_cons, zip5, ih]

theorem zip5_proj {α β γ δ ε : Type} (l : List (α × β × γ × δ × ε)) :
    zip5 (l.map fun x => x.1) (l.map fun x => x.2.1) (l.map fun x => x.2.2.1)
      (l.map fun x => x.2.2.2.1) (l.map fun x => x.2.2.2.2) = l := by
  rw [zip5_maps]
  exact List.map_id l

theorem pyTupleLe_fst {x y : Str × ℕ × ℕ × ℕ × ℕ} (h : pyTupleLe x y) : x.1 ≤ y.1 := by
  unfold pyTupleLe entryKey at h
  rcases (Prod.Lex.le_iff _ _).1 h with h1 | ⟨h1, _⟩
  · exact le_of_lt h1
  · exact le_of_eq h1

/-! ## Claims about `update_counts` and the city-map tick -/

/-- C2: the spec says the empty daily-count payload yields five empty
output series with no error; on the code, the 5-target unpacking of
`zip(*[])` at line 184 raises `ValueError` before any series is built,
embedded here as `update_graph [] = none`. -/
theorem C2_empty_payload_raises : update_graph [] = none := rfl

/-- C7: when the upstream fetch for the city-table refresh fails with a
non-success HTTP status, `raise_for_status` (line 317) raises — the
condition the spec's taxonomy names `UpstreamUnavailable` — before the
loop, the CSV write of line 347, or the figure construction run, so the
tick leaves the CSV export and the previously published snapshot
unchanged. -/
theorem C7_http_failure_keeps_state (st : CityMapState) (s : ℕ) :
    run_update_city_map (FetchResult.httpError s) st =
      (st, Except.error (PyError.upstreamUnavailable s)) ∧
    (run_update_city_map (FetchResult.httpError s) st).1.csvFile = st.csvFile ∧
    (run_update_city_map (FetchResult.httpError s) st).1.published = st.published :=
  ⟨rfl, rfl, rfl⟩

/-- C8 counterexample: the claim says every published total is a
fixed-width 5-digit string, but `f"{n:05d}"` only pads to a minimum
width of five: a payload with `confirmCount = 123456` is published as
the 6-character string `"123456"`. -/
theorem C8_counterexample :
    update_counts [⟨123456, 2, 3, 4, []⟩] [] =
      Except.ok ("更新时间：".data, "123456".data, "00002".data, "00003".data, "00004".data) ∧
    ("123456".data).length ≠ 5 :=
  ⟨rfl, by decide⟩

/-- C8 (amended): each of the four published totals is its decimal
representation left-padded with zeros to a minimum width of five
characters — exactly five whenever the representation has at most five
digits, and the full wider representation otherwise. -/
theorem C8_totals_zero_padded (g : GlobalVar) (rest : List GlobalVar) (now : Str) :
    update_counts (g :: rest) now =
      Except.ok ("更新时间：".data ++ now, pyFormat05 g.confirmCount,
        pyFormat05 g.suspectCount, pyFormat05 g.deadCount, pyFormat05 g.cure) ∧
    (∀ n : ℕ, (pyFormat05 n).length = max 5 (Nat.toDigits 10 n).length) ∧
    (∀ n : ℕ, (Nat.toDigits 10 n).length ≤ 5 → (pyFormat05 n).length = 5) := by
  refine ⟨by simp [update_counts], fun n => ?_, fun n h => ?_⟩
  · simp only [pyFormat05, List.length_append, List.length_replicate]
    omega
  · simp only [pyFormat05, List.length_append, List.length_replicate]
    omega

/-- C8 witness: a 3-digit total is published as exactly five characters. -/
theorem C8_witness : (pyFormat05 830).length = 5 :=
  (C8_totals_zero_padded ⟨830, 0, 0, 0, []⟩ [] []).2.2 830 (by decide)

/-- C9 counterexample: on the empty global-variables array the publisher
does not fail with the spec's `MalformedResponse` classification — line
249 indexes `[0]` into the empty array, raising `IndexError`. -/
theorem C9_counterexample :
    update_counts [] [] = Except.error PyError.indexError ∧
    (Except.error PyError.indexError :
        Except PyError (Str × Str × Str × Str × Str)) ≠
      Except.error PyError.malformedResponse :=
  ⟨rfl, by simp⟩

/-- C9 (amended): if the global-variables array is empty, `update_counts`
fails with an uncaught `IndexError` (no validation step classifies it as
a malformed response) and publishes no totals. -/
theorem C9_empty_globals_raises_index_error (now : Str) :
    update_counts [] now = Except.error PyError.indexError := rfl

/-- C10: the published counter outputs do not depend on the
upstream-reported `update_time` field — two global-variable payloads
that agree on everything except `update_time` produce identical
refresh-time text and identical formatted totals; the displayed
timestamp comes only from the local clock argument. -/
theorem C10_outputs_ignore_update_time (gv gv2 : List GlobalVar) (now : Str)
    (h : List.Forall₂ agreeExceptTime gv gv2) :
    update_counts gv now = update_counts gv2 now := by
  cases h with
  | nil => rfl
  | cons hg _ =>
      obtain ⟨h1, h2, h3, h4⟩ := hg
      simp [update_counts, h1, h2, h3, h4]

/-- C10 witness: two concrete payloads differing only in `update_time`
publish the same five outputs. -/
theorem C10_witness :
    update_counts [⟨1, 2, 3, 4, "2020-01-28 10:00".data⟩] ("now".data) =
      update_counts [⟨1, 2, 3, 4, "1999-01-01 00:00".data⟩] ("now".data) :=
  C10_outputs_ignore_update_time [⟨1, 2, 3, 4, "2020-01-28 10:00".data⟩]
    [⟨1, 2, 3, 4, "1999-01-01 00:00".data⟩] ("now".data)
    (List.Forall₂.cons ⟨rfl, rfl, rfl, rfl⟩ List.Forall₂.nil)

/-! ## Claims about the city table (C3, C4) -/

theorem update_city_rows_cons (p : ProvEntry) (rest : List ProvEntry) :
    update_city_rows (p :: rest) =
      (cityRowsOfProvince p).bind fun rows =>
        (update_city_rows rest).map fun rs => rows ++ rs := by
  cases hp : cityRowsOfProvince p <;> cases hr : update_city_rows rest <;>
    simp [update_city_rows, hp, hr]

theorem update_city_rows_append (pre post : List ProvEntry) (p : ProvEntry) :
    update_city_rows (pre ++ p :: post) =
      (update_city_rows pre).bind fun a =>
        (cityRowsOfProvince p).bind fun rows =>
          (update_city_rows post).map fun b => a ++ rows ++ b := by
  induction pre with
  | nil =>
      rw [List.nil_append, update_city_rows_cons]
      cases cityRowsOfProvince p <;> cases update_city_rows post <;>
        simp [update_city_rows]
  | cons q qs ih =>
      rw [List.cons_append, update_city_rows_cons, update_city_rows_cons, ih]
      cases cityRowsOfProvince q <;> cases update_city_rows qs <;>
        cases cityRowsOfProvince p <;> cases update_city_rows post <;>
          simp [List.append_assoc]

/-- C3: a province entry whose short name is in the fixed municipality
set `{北京, 上海, 天津, 重庆, 台湾}` contributes exactly one city-table
row, named by the province short name and carrying the four
province-level counts verbatim, wherever it appears in the payload; its
nested `cities` list (present or not) contributes nothing, because the
loop `continue`s past it (lines 323-330). -/
theorem C3_municipality_single_row (pre post : List ProvEntry) (p : ProvEntry)
    (h : p.provinceShortName ∈ municipalities) :
    update_city_rows (pre ++ p :: post) =
      (update_city_rows pre).bind fun a =>
        (update_city_rows post).map fun b =>
          a ++ ⟨p.provinceShortName, p.confirmedCount, p.suspectedCount,
                p.curedCount, p.deadCount⟩ :: b := by
  rw [update_city_rows_append]
  have hp : cityRowsOfProvince p =
      some [⟨p.provinceShortName, p.confirmedCount, p.suspectedCount,
            p.curedCount, p.deadCount⟩] := by
    simp [cityRowsOfProvince, h]
  rw [hp]
  cases update_city_rows pre <;> cases update_city_rows post <;> simp

/-- C3 witness: a municipality entry (with a non-empty nested `cities`
list) yields exactly its own pseudo-city row. -/
theorem C3_witness :
    update_city_rows
        [⟨"北京市".data, "北京".data, 10, 1, 2, 3, some [⟨"朝阳区".data, 5, 0, 0, 0⟩]⟩] =
      some [⟨"北京".data, 10, 1, 2, 3⟩] := by
  have h := C3_municipality_single_row [] []
    ⟨"北京市".data, "北京".data, 10, 1, 2, 3, some [⟨"朝阳区".data, 5, 0, 0, 0⟩]⟩ (by decide)
  simpa using h

/-- C4: a province entry whose short name is not in the municipality set
and whose `cities` key is present contributes exactly one row per nested
city entry — each row carrying that city's own name and four counts — so
it emits as many rows as its `cities` sequence is long (lines 331-336). -/
theorem C4_one_row_per_city (pre post : List ProvEntry) (p : ProvEntry)
    (cs : List ProvEntryCity)
    (h1 : p.provinceShortName ∉ municipalities) (h2 : p.cities = some cs) :
    update_city_rows (pre ++ p :: post) =
      ((update_city_rows pre).bind fun a =>
        (update_city_rows post).map fun b => a ++ cs.map cityRowOfCity ++ b) ∧
    (cs.map cityRowOfCity).length = cs.length := by
  constructor
  · rw [update_city_rows_append]
    have hp : cityRowsOfProvince p = some (cs.map cityRowOfCity) := by
      simp [cityRowsOfProvince, h1, h2]
    rw [hp]
    cases update_city_rows pre <;> cases update_city_rows post <;> simp
  · exact List.length_map cs cityRowOfCity

/-- C4 witness: a two-city province yields exactly its two city rows. -/
theorem C4_witness :
    update_city_rows
        [⟨"湖北省".data, "湖北".data, 100, 1, 2, 3,
          some [⟨"武汉".data, 90, 0, 1, 2⟩, ⟨"黄冈".data, 10, 0, 0, 0⟩]⟩] =
      some [⟨"武汉".data, 90, 0, 1, 2⟩, ⟨"黄冈".data, 10, 0, 0, 0⟩] := by
  have h := (C4_one_row_per_city [] []
    ⟨"湖北省".data, "湖北".data, 100, 1, 2, 3,
      some [⟨"武汉".data, 90, 0, 1, 2⟩, ⟨"黄冈".data, 10, 0, 0, 0⟩]⟩
    [⟨"武汉".data, 90, 0, 1, 2⟩, ⟨"黄冈".data, 10, 0, 0, 0⟩] (by decide) rfl).1
  simpa using h

/-! ## Claims about the intensity column and the join key (C5, C6) -/

theorem np_log_np_add_one (l : List ℕ) :
    np_log (np_add l 1) = l.map fun c : ℕ => Real.log ((c : ℝ) + 1) := by
  unfold np_log np_add
  rw [List.map_map]
  congr 1
  funext n
  simp only [Function.comp]
  push_cast
  rfl

/-- C5: in both region tables the derived intensity column is
`np.log(np.add(confirmeds, 1))` (lines 281 and 337), so the row at any
index has intensity `ln(confirmed + 1)` for that row's confirmed count,
and a row with `confirmed = 0` has intensity exactly `0`. -/
theorem C5_intensity_is_ln_confirmed_succ :
    (∀ (data : List ProvEntry) (prov : List Str) (cs ss cu de : List ℕ),
       update_province_map data = some (prov, cs, ss, cu, de) →
         province_confirmeds_log data = some (np_log (np_add cs 1)) ∧
         (∀ i : ℕ, (np_log (np_add cs 1))[i]? =
            cs[i]?.map fun c : ℕ => Real.log ((c : ℝ) + 1)) ∧
         (∀ i : ℕ, cs[i]? = some 0 → (np_log (np_add cs 1))[i]? = some 0)) ∧
    (∀ (data : List ProvEntry) (rows : List CityRow),
       update_city_rows data = some rows →
         city_confirmeds_log data = some (np_log (np_add (rows.map CityRow.confirmed) 1)) ∧
         (∀ i : ℕ, (np_log (np_add (rows.map CityRow.confirmed) 1))[i]? =
            (rows.map CityRow.confirmed)[i]?.map fun c : ℕ => Real.log ((c : ℝ) + 1)) ∧
         (∀ i : ℕ, (rows.map CityRow.confirmed)[i]? = some 0 →
            (np_log (np_add (rows.map CityRow.confirmed) 1))[i]? = some 0)) := by
  have key : ∀ (l : List ℕ) (i : ℕ),
      (np_log (np_add l 1))[i]? = l[i]?.map fun c : ℕ => Real.log ((c : ℝ) + 1) := by
    intro l i
    rw [np_log_np_add_one, List.getElem?_map]
  have zero : ∀ (l : List ℕ) (i : ℕ), l[i]? = some 0 →
      (np_log (np_add l 1))[i]? = some 0 := by
    intro l i h
    rw [key, h]
    simp
  constructor
  · intro data prov cs ss cu de h
    exact ⟨by simp [province_confirmeds_log, h], key cs, zero cs⟩
  · intro data rows h
    exact ⟨by simp [city_confirmeds_log, h], key (rows.map CityRow.confirmed),
           zero (rows.map CityRow.confirmed)⟩

/-- C5 witness: a province-table row with `confirmed = 0` has intensity
exactly `0`. -/
theorem C5_witness : (np_log (np_add [0] 1))[0]? = some 0 :=
  ((C5_intensity_is_ln_confirmed_succ.1 [⟨"测试省".data, "测试".data, 0, 0, 0, 0, none⟩]
    ["测试".data] [0] [0] [0] [0] (by decide)).2.2) 0 rfl

theorem pyRstrip_concat (l : Str) (c : Char) : pyRstrip (l ++ [c]) c = pyRstrip l c := by
  unfold pyRstrip
  rw [List.reverse_append]
  simp [List.dropWhile_cons]

theorem pyRstrip_of_getLast_ne (l : Str) (c : Char) (h : l.getLast? ≠ some c) :
    pyRstrip l c = l := by
  unfold pyRstrip
  rcases hr : l.reverse with _ | ⟨a, t⟩
  · rw [List.dropWhile_nil, List.reverse_nil]
    exact (List.reverse_eq_nil_iff.mp hr).symm
  · have ha : (a == c) = false := by
      have hh := List.head?_reverse l
      rw [hr] at hh
      simp only [List.head?_cons] at hh
      rw [beq_eq_false_iff_ne]
      intro e
      exact h (by rw [← hh, e])
    rw [List.dropWhile_cons, ha]
    simp only [Bool.false_eq_true, if_false]
    rw [← hr, List.reverse_reverse]

/-- C6: the province-table join key is the display name with its trailing
administrative suffixes stripped — `rstrip("省")` then `rstrip("市")`
(line 272) — so a name that is a suffix-free base followed by `省` or by
`市` (or by nothing) maps to the base; in particular the entry
`{"provinceName": "湖北省", "confirmedCount": 1000, ...}` yields the join
key `湖北` with intensity `ln 1001`. -/
theorem C6_join_key_and_hubei :
    (∀ base : Str, base.getLast? ≠ some '省' → base.getLast? ≠ some '市' →
       joinKey (base ++ "省".data) = base ∧ joinKey (base ++ "市".data) = base ∧
       joinKey base = base) ∧
    update_province_map [⟨"湖北省".data, "湖北".data, 1000, 20, 30, 40, some []⟩] =
      some (["湖北".data], [1000], [20], [30], [40]) ∧
    province_confirmeds_log [⟨"湖北省".data, "湖北".data, 1000, 20, 30, 40, some []⟩] =
      some [Real.log 1001] := by
  refine ⟨?_, by decide, ?_⟩
  · intro base h1 h2
    refine ⟨?_, ?_, ?_⟩
    · show pyRstrip (pyRstrip (base ++ ['省']) ('省')) ('市') = base
      rw [pyRstrip_concat, pyRstrip_of_getLast_ne base ('省') h1,
        pyRstrip_of_getLast_ne base ('市') h2]
    · show pyRstrip (pyRstrip (base ++ ['市']) ('省')) ('市') = base
      rw [pyRstrip_of_getLast_ne (base ++ ['市']) ('省') ?_, pyRstrip_concat,
        pyRstrip_of_getLast_ne base ('市') h2]
      rw [List.getLast?_concat]
      intro e
      exact absurd (Option.some.inj e) (by decide)
    · show pyRstrip (pyRstrip base ('省')) ('市') = base
      rw [pyRstrip_of_getLast_ne base ('省') h1, pyRstrip_of_getLast_ne base ('市') h2]
  · have h : update_province_map [⟨"湖北省".data, "湖北".data, 1000, 20, 30, 40, some []⟩] =
        some (["湖北".data], [1000], [20], [30], [40]) := by decide
    simp [province_confirmeds_log, h, np_log, np_add]

/-- C6 witness: the suffix-stripping clause applied to the concrete name
`武汉市` gives the join key `武汉`. -/
theorem C6_witness : joinKey ("武汉".data ++ "市".data) = "武汉".data :=
  (C6_join_key_and_hubei.1 ("武汉".data) (by decide) (by decide)).2.1

/-! ## Claim about the time-series output (C1) -/

theorem update_graph_zip (data : List DayRecord) (d0 : List Str) (c0 s0 dd0 h0 : List ℕ)
    (heq : unzip5 (data.map fun i => (i.date, i.confirm, i.suspect, i.dead, i.heal)) =
      some (d0, c0, s0, dd0, h0)) :
    zip5 (d0.map pyDate) c0 s0 dd0 h0 = data.map dayEntry := by
  obtain ⟨h1, h2, h3, h4, h5⟩ := unzip5_eq heq
  subst h1 h2 h3 h4 h5
  simp only [List.map_map]
  rw [zip5_maps]
  rfl

/-- C1 (amended): for every non-empty daily-count payload `update_graph`
succeeds, its output date sequence is non-decreasing in the
*lexicographic string order* of the formatted dates (not in calendar
order: `"2020-1-10"` sorts before `"2020-1-9"`), each of the four value
sequences has the same length as the date sequence, and the five
sequences are index-aligned: re-zipping them gives exactly a permutation
of the input records' `(formatted date, confirmed, suspected, dead,
cured)` tuples. -/
theorem C1_series_sorted_and_aligned :
    (∀ data : List DayRecord, data ≠ [] → (update_graph data).isSome = true) ∧
    (∀ (data : List DayRecord) (dates : List Str) (cs ss ds hs : List ℕ),
       update_graph data = some (dates, cs, ss, ds, hs) →
         List.Sorted (fun a b : Str => a ≤ b) dates ∧
         cs.length = dates.length ∧ ss.length = dates.length ∧
         ds.length = dates.length ∧ hs.length = dates.length ∧
         (zip5 dates cs ss ds hs).Perm (data.map dayEntry)) := by
  constructor
  · intro data hne
    unfold update_graph
    split
    · next heq =>
        exact absurd (List.map_eq_nil_iff.mp (unzip5_eq_none.mp heq)) hne
    · next d0 c0 s0 dd0 h0 heq =>
        apply unzip5_isSome
        intro hnil
        have hZ := update_graph_zip data d0 c0 s0 dd0 h0 heq
        have hlen : (zip5 (d0.map pyDate) c0 s0 dd0 h0).length = 0 := by
          rw [← (List.perm_insertionSort pyTupleLe _).length_eq, hnil]
          rfl
        rw [hZ, List.length_map] at hlen
        exact hne (List.length_eq_zero.mp hlen)
  · intro data dates cs ss ds hs h
    unfold update_graph at h
    split at h
    · exact absurd h (by simp)
    · next d0 c0 s0 dd0 h0 heq =>
        have hZ := update_graph_zip data d0 c0 s0 dd0 h0 heq
        obtain ⟨e1, e2, e3, e4, e5⟩ := unzip5_eq h
        subst e1 e2 e3 e4 e5
        refine ⟨?_, ?_, ?_, ?_, ?_, ?_⟩
        · exact List.Pairwise.map _ (fun a b hab => pyTupleLe_fst hab)
            (List.sorted_insertionSort pyTupleLe _)
        · simp [List.length_map]
        · simp [List.length_map]
        · simp [List.length_map]
        · simp [List.length_map]
        · rw [zip5_proj, ← hZ]
          exact List.perm_insertionSort pyTupleLe _

/-- C1 witness: on a concrete two-day payload the output is defined, the
dates come out in ascending string order, all lengths agree, and the
re-zipped output is a permutation of the input tuples. -/
theorem C1_witness :
    (update_graph [⟨"1/24".data, 2, 2, 2, 2⟩, ⟨"1/23".data, 100, 50, 2, 5⟩]).isSome = true ∧
    (List.Sorted (fun a b : Str => a ≤ b) ["2020-1-23".data, "2020-1-24".data] ∧
     ([100, 2] : List ℕ).length = (["2020-1-23".data, "2020-1-24".data] : List Str).length ∧
     ([50, 2] : List ℕ).length = (["2020-1-23".data, "2020-1-24".data] : List Str).length ∧
     ([2, 2] : List ℕ).length = (["2020-1-23".data, "2020-1-24".data] : List Str).length ∧
     ([5, 2] : List ℕ).length = (["2020-1-23".data, "2020-1-24".data] : List Str).length ∧
     (zip5 ["2020-1-23".data, "2020-1-24".data] [100, 2] [50, 2] [2, 2] [5, 2]).Perm
       (([⟨"1/24".data, 2, 2, 2, 2⟩, ⟨"1/23".data, 100, 50, 2, 5⟩] :
          List DayRecord).map dayEntry)) :=
  ⟨C1_series_sorted_and_aligned.1 [⟨"1/24".data, 2, 2, 2, 2⟩, ⟨"1/23".data, 100, 50, 2, 5⟩]
     (by decide),
   C1_series_sorted_and_aligned.2 [⟨"1/24".data, 2, 2, 2, 2⟩, ⟨"1/23".data, 100, 50, 2, 5⟩]
     ["2020-1-23".data, "2020-1-24".data] [100, 2] [50, 2] [2, 2] [5, 2] (by decide)⟩

/-- C1 counterexample: on the well-formed payload with the genuine dates
`1/9` and `1/10` the output date sequence is `["2020-1-10", "2020-1-9"]`
(with the values reordered along with it), which *decreases* in
calendar-date order, refuting the claim that the output is non-decreasing
in calendar order. -/
theorem C1_counterexample :
    update_graph [⟨"1/9".data, 1, 1, 1, 1⟩, ⟨"1/10".data, 2, 2, 2, 2⟩] =
      some (["2020-1-10".data, "2020-1-9".data], [2, 1], [2, 1], [2, 1], [2, 1]) ∧
    ¬ List.Sorted calendarLe ["2020-1-10".data, "2020-1-9".data] ∧
    calendarKey ("2020-1-10".data) = 20200110 ∧
    calendarKey ("2020-1-9".data) = 20200109 :=
  ⟨by decide, by decide, by decide, by decide⟩
